import Mathlib

/-!
Verification development for the NYC-transport raw-to-dataframe stage
(`src/05_raw_to_dataframe`).  We shallowly embed the two spatial zone
resolvers (`assign_taxi_zones` from `convert_bike_csv_to_parquet.py` and
`spatial_join` from `convert_taxi_csv_to_parquet.py`) and the per-era schema
normalization and union assembly of `convert_taxi_csv_to_parquet.py`, and
prove properties about them.

Modelling conventions:
* pandas float cells are `Option ℚ` (`none` = NaN); zone-id cells are
  `Option Int` (`none` = null/NaN, ids are integral);
* a pandas Series is a list of cells together with a dtype tag;
* a Python exception escaping a function is an `Except.error`;
* the geometry engine raising `ValueError` inside the `try` block is an
  explicit boolean input `sjoinErr` (the same batch may or may not trigger
  the engine failure depending on library internals, so it is an input);
* reading the zone shapefile from disk is recorded as a boolean effect flag.
-/

namespace NYCTransport

/-- Numpy/pandas dtypes appearing in the two scripts. -/
inductive Dtype
  | float64 | int64 | float32 | int32 | object | datetime64
deriving DecidableEq, Repr

/-- Python exceptions relevant to the resolvers. -/
inductive PyExc
  | valueError | attributeError
deriving DecidableEq, Repr

/-- The three columns of a record that the resolvers look at:
longitude, latitude (float cells, `none` = NaN) and the zone-id cell
(`none` = null). -/
structure ResolverRow where
  lon : Option ℚ
  lat : Option ℚ
  locid : Option Int
deriving DecidableEq, Repr

/-- A returned pandas Series: cell values plus the dtype tag. -/
structure PyColumn where
  vals : List (Option Int)
  dtype : Dtype
deriving DecidableEq, Repr

/-- One row of the taxi-zones shapefile: a `LocationID` and its polygon,
modelled as a containment test on (longitude, latitude). -/
structure Zone where
  locationID : Int
  contains : ℚ → ℚ → Bool

/-- Result of a resolver call: the returned column (or the escaping
exception), plus whether `taxi_zones_latlon.shp` was read. -/
structure ResolveOut where
  result : Except PyExc PyColumn
  shapefileRead : Bool

/-- `fillna(value=0.)` / `np.nan_to_num`: replace NaN by 0. -/
def fill0 (o : Option ℚ) : ℚ := o.getD 0

/-- The `replace_locid` eligibility mask of `assign_taxi_zones`
(bike script lines 74-78): zone id null and both filled coordinates
non-zero. -/
def replaceLocid (r : ResolverRow) : Bool :=
  r.locid.isNone && decide (fill0 r.lon ≠ 0) && decide (fill0 r.lat ≠ 0)

/-- First zone (in shapefile order) whose polygon contains the row's filled
point: the left spatial join followed by
`~index.duplicated(keep='first')` (bike script lines 91-96) keeps, per input
row, the first matching polygon, or NaN when none matches. -/
def firstZoneMatch (zones : List Zone) (r : ResolverRow) : Option Int :=
  (zones.find? (fun z => z.contains (fill0 r.lon) (fill0 r.lat))).map Zone.locationID

/-- Per-row value of the column built by `assign_taxi_zones`'s success path:
rows outside the mask are written back to their original zone id
(bike script lines 98-99); masked rows keep the join result. -/
def bikeRowResult (zones : List Zone) (r : ResolverRow) : Option Int :=
  if replaceLocid r then firstZoneMatch zones r else r.locid

/-- `assign_taxi_zones(df, lon_var, lat_var, locid_var)` from
`convert_bike_csv_to_parquet.py` (lines 42-107).  `locidDtype` is the dtype
of the input zone-id column (returned unchanged on the fallback paths).
When `sjoinErr` is set, the geometry engine raises `ValueError` inside the
`try` block; the handler prints the error and then calls `ve.stacktrace()`,
a method `ValueError` does not have, so an `AttributeError` escapes before
the handler's `return df[locid_var]` is reached. -/
def assign_taxi_zones (rows : List ResolverRow) (zones : List Zone)
    (locidDtype : Dtype) (sjoinErr : Bool) : ResolveOut :=
  if rows.any replaceLocid then
    if sjoinErr then
      { result := .error .attributeError, shapefileRead := true }
    else
      { result := .ok ⟨rows.map (bikeRowResult zones), .float64⟩,
        shapefileRead := true }
  else
    { result := .ok ⟨rows.map ResolverRow.locid, locidDtype⟩,
      shapefileRead := false }

/-- Per-row contribution to the column built by `spatial_join`'s success
path: the inner spatial join produces one row per matching polygon (in
shapefile order); the subsequent left merge on the index keeps one row with
NaN when there is no match, which `fillna(-999.)` turns into `-999`
(taxi script lines 49-57).  There is no deduplication, so a multi-match
point contributes several rows. -/
def taxiRowResult (zones : List Zone) (r : ResolverRow) : List (Option Int) :=
  let ms := zones.filter (fun z => z.contains (fill0 r.lon) (fill0 r.lat))
  if ms.isEmpty then [some (-999)] else ms.map (fun z => some z.locationID)

/-- `spatial_join(df, lon_var, lat_var, locid_var)` from
`convert_taxi_csv_to_parquet.py` (lines 34-66).  The shapefile is read
unconditionally (line 38) before any eligibility test.  The guard is
`np.any((lats != 0.) | (lons != 0.))` over the NaN-filled coordinate
arrays; when it fails, or when the engine raises `ValueError` (caught at
line 61), the original column is returned.  On the success path the
original zone-id values are discarded: only the joined `LocationID`
column, `fillna(-999)` and cast to int64, is returned. -/
def spatial_join (rows : List ResolverRow) (zones : List Zone)
    (locidDtype : Dtype) (sjoinErr : Bool) : ResolveOut :=
  if rows.any (fun r => decide (fill0 r.lat ≠ 0) || decide (fill0 r.lon ≠ 0)) then
    if sjoinErr then
      { result := .ok ⟨rows.map ResolverRow.locid, locidDtype⟩,
        shapefileRead := true }
    else
      { result := .ok ⟨rows.flatMap (taxiRowResult zones), .int64⟩,
        shapefileRead := true }
  else
    { result := .ok ⟨rows.map ResolverRow.locid, locidDtype⟩,
      shapefileRead := true }

/-- Whenever `assign_taxi_zones` returns a column normally, its cells are the
per-row values `bikeRowResult`: on the success path by construction, and on
the no-eligible-row path because every row's mask is false, so
`bikeRowResult` degenerates to the original zone id. -/
theorem bike_ok_vals (rows : List ResolverRow) (zones : List Zone)
    (d : Dtype) (e : Bool) (col : PyColumn)
    (hcol : (assign_taxi_zones rows zones d e).result = .ok col) :
    col.vals = rows.map (bikeRowResult zones) := by
  unfold assign_taxi_zones at hcol
  split at hcol
  · split at hcol
    · simp at hcol
    · simp only [Except.ok.injEq] at hcol
      rw [← hcol]
  · rename_i h
    simp only [Except.ok.injEq] at hcol
    rw [← hcol]
    refine List.map_congr_left ?_
    intro r hr
    have hrep : replaceLocid r = false := by
      by_contra hcon
      exact h (List.any_eq_true.mpr ⟨r, hr, by simpa using hcon⟩)
    simp [bikeRowResult, hrep]

/-- C1 (amended): every record with a non-null zone id keeps exactly its
original zone-id value in the column returned by `assign_taxi_zones` --
the bike-script resolver.  (The taxi-script resolver `spatial_join` does
not satisfy this; see the counterexample.) -/
theorem assign_taxi_zones_preserves_nonnull_locid
    (rows : List ResolverRow) (zones : List Zone) (d : Dtype) (e : Bool)
    (col : PyColumn) (hcol : (assign_taxi_zones rows zones d e).result = .ok col)
    (i : Nat) (hi : i < rows.length) (v : Int) (hv : rows[i].locid = some v) :
    col.vals[i]? = some (some v) := by
  rw [bike_ok_vals rows zones d e col hcol, List.getElem?_map,
    List.getElem?_eq_getElem hi]
  simp [bikeRowResult, replaceLocid, hv]

/-- Witness for C1's amended theorem at a concrete batch. -/
theorem assign_taxi_zones_preserves_nonnull_locid_witness :
    (assign_taxi_zones [⟨some 1, some 2, some 7⟩] [] .float64 false).result
        = .ok ⟨[some 7], .float64⟩
      ∧ (PyColumn.mk [some 7] .float64).vals[0]? = some (some 7) :=
  ⟨by rfl,
    assign_taxi_zones_preserves_nonnull_locid [⟨some 1, some 2, some 7⟩] []
      .float64 false ⟨[some 7], .float64⟩ (by rfl) 0 (by decide) 7 (by rfl)⟩

/-- Counterexample to C1 as stated: in `spatial_join` a record whose zone id
is already `150` and whose point lies in the polygon of zone `12` comes back
with zone id `12`, not `150` -- the taxi-script resolver discards the
original zone-id column on its success path. -/
theorem spatial_join_overwrites_nonnull_locid :
    ([⟨some (-74), some 41, some 150⟩] : List ResolverRow).map ResolverRow.locid
        = [some 150]
      ∧ (spatial_join [⟨some (-74), some 41, some 150⟩]
          [⟨12, fun x y => decide (x = -74) && decide (y = 41)⟩]
          .float64 false).result
        = .ok ⟨[some 12], .int64⟩ := ⟨rfl, by rfl⟩

/-- C2: on an eligible batch where the geometry engine raises `ValueError`,
`assign_taxi_zones`'s handler evaluates `ve.stacktrace()` -- a method
`ValueError` does not have -- so the call aborts with `AttributeError`
instead of returning the original column; `spatial_join`'s handler does
return the original column normally. -/
theorem assign_taxi_zones_handler_raises :
    (assign_taxi_zones [⟨some 1, some 1, none⟩] [] .float64 true).result
        = .error .attributeError
      ∧ (spatial_join [⟨some 1, some 1, none⟩] [] .float64 true).result
        = .ok ⟨[none], .float64⟩ := ⟨by rfl, by rfl⟩

/-- Counterexample to C3 as stated: in `assign_taxi_zones` an eligible
record (null zone id, non-zero coordinates) contained in no polygon comes
back as null (NaN), not as the sentinel `-999` -- the bike-script resolver
never fills `-999`. -/
theorem assign_taxi_zones_unmatched_left_null :
    (assign_taxi_zones [⟨some 1, some 1, none⟩] [] .float64 false).result
        = .ok ⟨[none], .float64⟩
      ∧ (none : Option Int) ≠ some (-999) := ⟨by rfl, by decide⟩

/-- C3 (amended): in `spatial_join`, on a batch that reaches a successful
join (some filled coordinate non-zero, no engine error), the returned
column is built row by row, and any record -- in particular one at (0,0)
with a null zone id -- whose point is contained in no polygon contributes
exactly the sentinel `-999`. -/
theorem spatial_join_unmatched_sentinel
    (rows : List ResolverRow) (zones : List Zone) (d : Dtype)
    (h : rows.any
        (fun r => decide (fill0 r.lat ≠ 0) || decide (fill0 r.lon ≠ 0)) = true) :
    spatial_join rows zones d false
        = ⟨.ok ⟨rows.flatMap (taxiRowResult zones), .int64⟩, true⟩
      ∧ ∀ r : ResolverRow,
          (∀ z ∈ zones, z.contains (fill0 r.lon) (fill0 r.lat) = false) →
          taxiRowResult zones r = [some (-999)] := by
  constructor
  · unfold spatial_join
    rw [if_pos h]
    simp
  · intro r hr
    unfold taxiRowResult
    have hnil : zones.filter (fun z => z.contains (fill0 r.lon) (fill0 r.lat)) = [] :=
      List.filter_eq_nil_iff.mpr (fun z hz => by simp [hr z hz])
    simp [hnil]

/-- Witness for C3's amended theorem: a single eligible record whose point
lies in no polygon resolves to `-999`. -/
theorem spatial_join_unmatched_sentinel_witness :
    spatial_join [⟨some 3, some 4, none⟩] [⟨5, fun x _ => decide (x = 9)⟩]
        .float64 false
      = ⟨.ok ⟨[some (-999)], .int64⟩, true⟩ :=
  ((spatial_join_unmatched_sentinel [⟨some 3, some 4, none⟩]
      [⟨5, fun x _ => decide (x = 9)⟩] .float64 (by rfl)).1).trans (by rfl)

/-- C4 (amended): in `assign_taxi_zones`, a batch with no eligible record
returns the zone-id column unmodified (values and dtype) and never reads
the zone shapefile.  (`spatial_join` reads the shapefile unconditionally;
see the counterexample.) -/
theorem assign_taxi_zones_no_eligible_skips_shapefile
    (rows : List ResolverRow) (zones : List Zone) (d : Dtype) (e : Bool)
    (h : rows.any replaceLocid = false) :
    assign_taxi_zones rows zones d e
      = ⟨.ok ⟨rows.map ResolverRow.locid, d⟩, false⟩ := by
  unfold assign_taxi_zones
  rw [if_neg (by simp [h])]

/-- Witness for C4's amended theorem at a concrete batch with no eligible
record. -/
theorem assign_taxi_zones_no_eligible_skips_shapefile_witness :
    assign_taxi_zones [⟨some 1, some 1, some 3⟩, ⟨some 0, some 0, none⟩]
        [] .int64 false
      = ⟨.ok ⟨[some 3, none], .int64⟩, false⟩ :=
  assign_taxi_zones_no_eligible_skips_shapefile
    [⟨some 1, some 1, some 3⟩, ⟨some 0, some 0, none⟩] [] .int64 false (by rfl)

/-- Counterexample to C4 as stated: `spatial_join` reads the zone shapefile
(line 38, before any eligibility test) even on a batch with no eligible
record. -/
theorem spatial_join_always_reads_shapefile :
    ([⟨some 0, some 0, none⟩] : List ResolverRow).any replaceLocid = false
      ∧ (spatial_join [⟨some 0, some 0, none⟩] [] .float64 false).shapefileRead
        = true := ⟨by rfl, by rfl⟩

/-- C5 (amended): on its success path `assign_taxi_zones` assigns each
eligible record exactly one value -- the `LocationID` of the first polygon
containing its point in shapefile order (`sjoin` output order plus
`~index.duplicated(keep='first')`) -- and the resolver is a pure function,
so two runs on the same batch agree.  (`spatial_join` does not deduplicate;
see the counterexample.) -/
theorem assign_taxi_zones_first_match_deterministic
    (rows : List ResolverRow) (zones : List Zone) (d : Dtype)
    (h : rows.any replaceLocid = true) :
    (assign_taxi_zones rows zones d false).result
        = .ok ⟨rows.map (bikeRowResult zones), .float64⟩
      ∧ (∀ r, replaceLocid r = true →
          bikeRowResult zones r
            = (zones.find? (fun z =>
                z.contains (fill0 r.lon) (fill0 r.lat))).map Zone.locationID)
      ∧ assign_taxi_zones rows zones d false
          = assign_taxi_zones rows zones d false := by
  refine ⟨?_, ?_, rfl⟩
  · unfold assign_taxi_zones
    rw [if_pos h]
    simp
  · intro r hr
    simp [bikeRowResult, hr, firstZoneMatch]

/-- Witness for C5's amended theorem: a point inside both polygons gets the
first polygon's identifier. -/
theorem assign_taxi_zones_first_match_deterministic_witness :
    (assign_taxi_zones [⟨some 2, some 2, none⟩]
        [⟨10, fun _ _ => true⟩, ⟨20, fun _ _ => true⟩] .float64 false).result
      = .ok ⟨[some 10], .float64⟩ :=
  ((assign_taxi_zones_first_match_deterministic [⟨some 2, some 2, none⟩]
      [⟨10, fun _ _ => true⟩, ⟨20, fun _ _ => true⟩] .float64 (by rfl)).1).trans
    (by rfl)

/-- Counterexample to C5 as stated: `spatial_join` does not deduplicate the
inner join, so one record on the shared boundary of two polygons produces
two rows (two identifiers) in the returned column. -/
theorem spatial_join_boundary_duplicates :
    ([⟨some 1, some 1, none⟩] : List ResolverRow).length = 1
      ∧ (spatial_join [⟨some 1, some 1, none⟩]
          [⟨10, fun _ _ => true⟩, ⟨20, fun _ _ => true⟩] .float64 false).result
        = .ok ⟨[some 10, some 20], .int64⟩ := ⟨rfl, by rfl⟩

/-- C6 (amended): a column returned normally by `spatial_join` either has
dtype int64 (successful-join path, line 57) or is the input zone-id column
returned untouched with its input dtype (guard-failed or engine-error
path). -/
theorem spatial_join_int64_or_untouched
    (rows : List ResolverRow) (zones : List Zone) (d : Dtype) (e : Bool)
    (col : PyColumn) (hcol : (spatial_join rows zones d e).result = .ok col) :
    col.dtype = .int64 ∨ col = ⟨rows.map ResolverRow.locid, d⟩ := by
  unfold spatial_join at hcol
  split at hcol
  · split at hcol
    · right
      simp only [Except.ok.injEq] at hcol
      rw [← hcol]
    · left
      simp only [Except.ok.injEq] at hcol
      rw [← hcol]
  · right
    simp only [Except.ok.injEq] at hcol
    rw [← hcol]

/-- Witness for C6's amended theorem on a successful-join batch. -/
theorem spatial_join_int64_or_untouched_witness :
    (PyColumn.mk [some (-999)] .int64).dtype = .int64
      ∨ PyColumn.mk [some (-999)] .int64
        = ⟨([⟨some 1, some 1, none⟩] : List ResolverRow).map ResolverRow.locid,
            .float64⟩ :=
  spatial_join_int64_or_untouched [⟨some 1, some 1, none⟩] [] .float64 false
    ⟨[some (-999)], .int64⟩ (by rfl)

/-- Counterexample to C6 as stated: `assign_taxi_zones` casts the column it
returns on the success path to float64 (line 101), not to the declared
integer dtype. -/
theorem assign_taxi_zones_returns_float64 :
    (assign_taxi_zones [⟨some 1, some 1, none⟩] [⟨3, fun _ _ => true⟩]
        .float64 false).result
      = .ok ⟨[some 3], .float64⟩
      ∧ Dtype.float64 ≠ Dtype.int64 := ⟨by rfl, by decide⟩

/-- Counterexample to C10 as stated: in `spatial_join` a record with a null
zone id and a NaN longitude (filled to 0) is not protected: because another
coordinate of the batch is non-zero, the record is pushed through the join
and resolved to `-999` instead of keeping its null zone id. -/
theorem spatial_join_nan_coordinate_resolved :
    ([⟨none, some 2, none⟩] : List ResolverRow).map ResolverRow.locid = [none]
      ∧ (spatial_join [⟨none, some 2, none⟩] [] .float64 false).result
        = .ok ⟨[some (-999)], .int64⟩ := ⟨rfl, by rfl⟩

/-- C10 (amended): in `assign_taxi_zones`, NaN coordinates are filled with 0
before the eligibility test, so a record with a missing longitude or
latitude is never eligible and its zone-id value appears unchanged in any
normally returned column. -/
theorem assign_taxi_zones_nan_coordinate_unchanged
    (rows : List ResolverRow) (zones : List Zone) (d : Dtype) (e : Bool)
    (col : PyColumn) (hcol : (assign_taxi_zones rows zones d e).result = .ok col)
    (i : Nat) (hi : i < rows.length)
    (h : rows[i].lon = none ∨ rows[i].lat = none) :
    col.vals[i]? = some rows[i].locid := by
  rw [bike_ok_vals rows zones d e col hcol, List.getElem?_map,
    List.getElem?_eq_getElem hi]
  have h0 : decide (fill0 (none : Option ℚ) ≠ 0) = false := by rfl
  have hrep : replaceLocid rows[i] = false := by
    rcases h with h | h <;> simp [replaceLocid, h, h0]
  simp [bikeRowResult, hrep]

/-- Witness for C10's amended theorem: a record with NaN longitude keeps its
null zone id even though a polygon would contain the filled point. -/
theorem assign_taxi_zones_nan_coordinate_unchanged_witness :
    (assign_taxi_zones [⟨none, some 2, none⟩] [⟨3, fun _ _ => true⟩]
        .float64 false).result = .ok ⟨[none], .float64⟩
      ∧ (PyColumn.mk [none] .float64).vals[0]?
        = some (([⟨none, some 2, none⟩] : List ResolverRow)[0].locid) :=
  ⟨by rfl,
    assign_taxi_zones_nan_coordinate_unchanged [⟨none, some 2, none⟩]
      [⟨3, fun _ _ => true⟩] .float64 false ⟨[none], .float64⟩ (by rfl) 0
      (by decide) (Or.inl (by rfl))⟩

/-! ### Per-era schema normalization (`convert_taxi_csv_to_parquet.py`, `main`) -/

/-- A pandas cell value: NaN, an integer, a rational number, text, or a
parsed timestamp. -/
inductive PyVal
  | nan
  | int (i : Int)
  | num (q : ℚ)
  | text (s : String)
  | datetime (s : String)
deriving DecidableEq, Repr

/-- A raw or normalized record: the ordered list of (column name, value)
pairs of one dataframe row. -/
abbrev Row := List (String × PyVal)

/-- `df[name] = value` (scalar column assignment): overwrite the column if
present, otherwise append it at the end.  The scripts' two-step
`df[c] = df[other].copy(); df[c] = scalar` collapses to a single scalar
assignment, since the copied values are immediately overwritten. -/
def setCol (n : String) (v : PyVal) : Row → Row
  | [] => [(n, v)]
  | p :: ps => if p.1 = n then (n, v) :: ps else p :: setCol n v ps

/-- `df.drop(junk, axis=1)`. -/
def dropCols (junk : List String) (row : Row) : Row :=
  row.filter (fun p => !(junk.contains p.1))

/-- Look a column's value up in a record (first occurrence). -/
def getCol (n : String) : Row → Option PyVal
  | [] => none
  | p :: ps => if p.1 = n then some p.2 else getCol n ps

/-- The seven schema eras registered in `main`: four green and three yellow
csv layouts. -/
inductive Era
  | green1 | green2 | green3 | green4 | yellow1 | yellow2 | yellow3
deriving DecidableEq, Repr

/-- The raw column list of each era, from the `*_schema_*` strings of
`main` (split on commas). -/
def eraSchema : Era → List String
  | .green1 =>
    ["vendor_id", "pickup_datetime", "dropoff_datetime", "store_and_fwd_flag",
     "rate_code_id", "pickup_longitude", "pickup_latitude", "dropoff_longitude",
     "dropoff_latitude", "passenger_count", "trip_distance", "fare_amount",
     "extra", "mta_tax", "tip_amount", "tolls_amount", "ehail_fee",
     "total_amount", "payment_type", "trip_type", "junk1", "junk2"]
  | .green2 =>
    ["vendor_id", "pickup_datetime", "dropoff_datetime", "store_and_fwd_flag",
     "rate_code_id", "pickup_longitude", "pickup_latitude", "dropoff_longitude",
     "dropoff_latitude", "passenger_count", "trip_distance", "fare_amount",
     "extra", "mta_tax", "tip_amount", "tolls_amount", "ehail_fee",
     "improvement_surcharge", "total_amount", "payment_type", "trip_type",
     "junk1", "junk2"]
  | .green3 =>
    ["vendor_id", "pickup_datetime", "dropoff_datetime", "store_and_fwd_flag",
     "rate_code_id", "pickup_longitude", "pickup_latitude", "dropoff_longitude",
     "dropoff_latitude", "passenger_count", "trip_distance", "fare_amount",
     "extra", "mta_tax", "tip_amount", "tolls_amount", "ehail_fee",
     "improvement_surcharge", "total_amount", "payment_type", "trip_type"]
  | .green4 =>
    ["vendor_id", "pickup_datetime", "dropoff_datetime", "store_and_fwd_flag",
     "rate_code_id", "pickup_location_id", "dropoff_location_id",
     "passenger_count", "trip_distance", "fare_amount", "extra", "mta_tax",
     "tip_amount", "tolls_amount", "ehail_fee", "improvement_surcharge",
     "total_amount", "payment_type", "trip_type", "junk1", "junk2"]
  | .yellow1 =>
    ["vendor_id", "pickup_datetime", "dropoff_datetime", "passenger_count",
     "trip_distance", "pickup_longitude", "pickup_latitude", "rate_code_id",
     "store_and_fwd_flag", "dropoff_longitude", "dropoff_latitude",
     "payment_type", "fare_amount", "extra", "mta_tax", "tip_amount",
     "tolls_amount", "total_amount"]
  | .yellow2 =>
    ["vendor_id", "pickup_datetime", "dropoff_datetime", "passenger_count",
     "trip_distance", "pickup_longitude", "pickup_latitude", "rate_code_id",
     "store_and_fwd_flag", "dropoff_longitude", "dropoff_latitude",
     "payment_type", "fare_amount", "extra", "mta_tax", "tip_amount",
     "tolls_amount", "improvement_surcharge", "total_amount"]
  | .yellow3 =>
    ["vendor_id", "pickup_datetime", "dropoff_datetime", "passenger_count",
     "trip_distance", "rate_code_id", "store_and_fwd_flag",
     "pickup_location_id", "dropoff_location_id", "payment_type",
     "fare_amount", "extra", "mta_tax", "tip_amount", "tolls_amount",
     "improvement_surcharge", "total_amount", "junk1", "junk2"]

/-- The per-era normalization done in `main` right after each `read_csv`:
scalar assignments of the era's absent canonical columns (`-999` for the
identifier-like ones, NaN for the continuous ones), then dropping that
era's junk columns, in exactly the source's statement order
(lines 146-152, 160-164, 172-175, 183-191, 226-235, 243-250, 258-270). -/
def normalizeEra : Era → Row → Row
  | .green1 => fun row =>
    dropCols ["junk1", "junk2"]
      (setCol "improvement_surcharge" .nan
        (setCol "pickup_location_id" (.int (-999))
          (setCol "dropoff_location_id" (.int (-999)) row)))
  | .green2 => fun row =>
    dropCols ["junk1", "junk2"]
      (setCol "pickup_location_id" (.int (-999))
        (setCol "dropoff_location_id" (.int (-999)) row))
  | .green3 => fun row =>
    setCol "pickup_location_id" (.int (-999))
      (setCol "dropoff_location_id" (.int (-999)) row)
  | .green4 => fun row =>
    dropCols ["junk1", "junk2"]
      (setCol "pickup_longitude" .nan
        (setCol "pickup_latitude" .nan
          (setCol "dropoff_longitude" .nan
            (setCol "dropoff_latitude" .nan row))))
  | .yellow1 => fun row =>
    setCol "trip_type" (.int (-999))
      (setCol "improvement_surcharge" .nan
        (setCol "ehail_fee" .nan
          (setCol "pickup_location_id" (.int (-999))
            (setCol "dropoff_location_id" (.int (-999)) row))))
  | .yellow2 => fun row =>
    setCol "trip_type" (.int (-999))
      (setCol "ehail_fee" .nan
        (setCol "pickup_location_id" (.int (-999))
          (setCol "dropoff_location_id" (.int (-999)) row)))
  | .yellow3 => fun row =>
    dropCols ["junk1", "junk2"]
      (setCol "trip_type" (.int (-999))
        (setCol "ehail_fee" .nan
          (setCol "pickup_longitude" .nan
            (setCol "pickup_latitude" .nan
              (setCol "dropoff_longitude" .nan
                (setCol "dropoff_latitude" .nan row))))))

/-- The canonical column set shared by every normalized era, listed in the
sorted order used by the union assembler (`sorted(green1.columns)`,
`sorted(yellow1.columns)` -- both give this same 23-column list). -/
def canonicalCols : List String :=
  ["dropoff_datetime", "dropoff_latitude", "dropoff_location_id",
   "dropoff_longitude", "ehail_fee", "extra", "fare_amount",
   "improvement_surcharge", "mta_tax", "passenger_count", "payment_type",
   "pickup_datetime", "pickup_latitude", "pickup_location_id",
   "pickup_longitude", "rate_code_id", "store_and_fwd_flag", "tip_amount",
   "tolls_amount", "total_amount", "trip_distance", "trip_type", "vendor_id"]

/-- The canonical columns the scripts fill with the `-999` sentinel when an
era lacks them (identifier-like columns, per the spec's classification);
all other absentees are continuous measurements and are filled with NaN. -/
def identifierCols : List String :=
  ["pickup_location_id", "dropoff_location_id", "trip_type"]

/-- The declared default for a canonical column absent from an era:
sentinel `-999` for identifier-like columns, NaN for continuous ones. -/
def eraDefault (c : String) : PyVal :=
  if identifierCols.contains c then .int (-999) else .nan

/-- The column names of a record after a scalar column assignment: unchanged
when the column existed, appended at the end otherwise. -/
theorem map_fst_setCol (n : String) (v : PyVal) (row : Row) :
    (setCol n v row).map Prod.fst
      = if n ∈ row.map Prod.fst then row.map Prod.fst
        else row.map Prod.fst ++ [n] := by
  induction row with
  | nil => simp [setCol]
  | cons p ps ih =>
    by_cases hp : p.1 = n
    · simp [setCol, hp]
    · have hnp : ¬n = p.1 := fun e => hp e.symm
      by_cases hm : n ∈ ps.map Prod.fst
      · simp [setCol, hp, ih, hm, hnp]
      · simp [setCol, hp, ih, hm, hnp]

/-- The column names of a record after dropping junk columns. -/
theorem map_fst_dropCols (junk : List String) (row : Row) :
    (dropCols junk row).map Prod.fst
      = (row.map Prod.fst).filter (fun s => !(junk.contains s)) := by
  induction row with
  | nil => rfl
  | cons p ps ih =>
    simp only [dropCols] at ih ⊢
    simp only [List.filter_cons, List.map_cons]
    by_cases hp : (!junk.contains p.1) = true
    · rw [if_pos hp, if_pos hp, List.map_cons]
      exact congrArg (List.cons p.1) ih
    · rw [if_neg hp, if_neg hp]
      exact ih

/-- Column lookup after a scalar column assignment. -/
theorem getCol_setCol (m n : String) (v : PyVal) (row : Row) :
    getCol m (setCol n v row) = if m = n then some v else getCol m row := by
  induction row with
  | nil =>
    by_cases hmn : m = n
    · simp [setCol, getCol, hmn]
    · have : ¬n = m := fun e => hmn e.symm
      simp [setCol, getCol, hmn, this]
  | cons p ps ih =>
    by_cases hp : p.1 = n
    · by_cases hmn : m = n
      · simp [setCol, getCol, hp, hmn]
      · have h1 : ¬n = m := fun e => hmn e.symm
        have h2 : ¬p.1 = m := fun e => hmn (hp ▸ e).symm
        simp [setCol, getCol, hp, hmn, h1, h2]
    · by_cases hpm : p.1 = m
      · have hmn : ¬m = n := fun e => hp (hpm.trans e)
        simp [setCol, getCol, hp, hpm, hmn]
      · simp [setCol, getCol, hp, hpm, ih]

/-- Column lookup is unaffected by dropping junk columns the lookup does not
mention. -/
theorem getCol_dropCols (m : String) (junk : List String) (row : Row)
    (h : m ∉ junk) :
    getCol m (dropCols junk row) = getCol m row := by
  induction row with
  | nil => rfl
  | cons p ps ih =>
    simp only [dropCols] at ih ⊢
    simp only [List.filter_cons]
    by_cases hp : (!junk.contains p.1) = true
    · rw [if_pos hp]
      simp only [getCol]
      rw [ih]
    · have hpj : p.1 ∈ junk := by
        by_contra hc
        simp [hc] at hp
      have hpm : ¬p.1 = m := fun e => h (e ▸ hpj)
      rw [if_neg hp, ih]
      simp [getCol, hpm]

/-- C9: for every registered era, normalizing a raw row with that era's
column list yields a record whose column set is exactly the canonical
23-column set -- no extras, no omissions. -/
theorem normalize_canonical_column_set (e : Era) (row : Row)
    (h : row.map Prod.fst = eraSchema e) :
    ((normalizeEra e row).map Prod.fst).Perm canonicalCols := by
  cases e <;>
    simp only [normalizeEra, map_fst_setCol, map_fst_dropCols, h, eraSchema] <;>
    decide

/-- Witness for C9 at a concrete green pre-2015 raw row. -/
theorem normalize_canonical_column_set_witness :
    ((normalizeEra .green1
        ((eraSchema .green1).map (fun n => (n, PyVal.nan)))).map Prod.fst).Perm
      canonicalCols :=
  normalize_canonical_column_set .green1
    ((eraSchema .green1).map (fun n => (n, PyVal.nan))) (by decide)

/-- C7: every canonical column absent from an era's raw layout is populated
by that era's normalization with its declared default -- `-999` for the
identifier-like columns, NaN for the continuous ones; in particular a green
pre-2015 row gets `improvement_surcharge = NaN` and both location ids
`-999`. -/
theorem normalize_absent_columns_defaults (e : Era) (row : Row) (c : String)
    (hc : c ∈ canonicalCols.filter (fun s => !((eraSchema e).contains s))) :
    getCol c (normalizeEra e row) = some (eraDefault c) := by
  cases e with
  | green1 =>
    have hc' : c = "dropoff_location_id" ∨ c = "improvement_surcharge"
        ∨ c = "pickup_location_id" := by
      have : canonicalCols.filter (fun s => !((eraSchema .green1).contains s))
          = ["dropoff_location_id", "improvement_surcharge",
             "pickup_location_id"] := by decide
      rw [this] at hc
      simpa using hc
    rcases hc' with rfl | rfl | rfl <;>
      simp [normalizeEra, getCol_setCol, eraDefault, identifierCols,
        getCol_dropCols]
  | green2 =>
    have hc' : c = "dropoff_location_id" ∨ c = "pickup_location_id" := by
      have : canonicalCols.filter (fun s => !((eraSchema .green2).contains s))
          = ["dropoff_location_id", "pickup_location_id"] := by decide
      rw [this] at hc
      simpa using hc
    rcases hc' with rfl | rfl <;>
      simp [normalizeEra, getCol_setCol, eraDefault, identifierCols,
        getCol_dropCols]
  | green3 =>
    have hc' : c = "dropoff_location_id" ∨ c = "pickup_location_id" := by
      have : canonicalCols.filter (fun s => !((eraSchema .green3).contains s))
          = ["dropoff_location_id", "pickup_location_id"] := by decide
      rw [this] at hc
      simpa using hc
    rcases hc' with rfl | rfl <;>
      simp [normalizeEra, getCol_setCol, eraDefault, identifierCols]
  | green4 =>
    have hc' : c = "dropoff_latitude" ∨ c = "dropoff_longitude"
        ∨ c = "pickup_latitude" ∨ c = "pickup_longitude" := by
      have : canonicalCols.filter (fun s => !((eraSchema .green4).contains s))
          = ["dropoff_latitude", "dropoff_longitude", "pickup_latitude",
             "pickup_longitude"] := by decide
      rw [this] at hc
      simpa using hc
    rcases hc' with rfl | rfl | rfl | rfl <;>
      simp [normalizeEra, getCol_setCol, eraDefault, identifierCols,
        getCol_dropCols]
  | yellow1 =>
    have hc' : c = "dropoff_location_id" ∨ c = "ehail_fee"
        ∨ c = "improvement_surcharge" ∨ c = "pickup_location_id"
        ∨ c = "trip_type" := by
      have : canonicalCols.filter (fun s => !((eraSchema .yellow1).contains s))
          = ["dropoff_location_id", "ehail_fee", "improvement_surcharge",
             "pickup_location_id", "trip_type"] := by decide
      rw [this] at hc
      simpa using hc
    rcases hc' with rfl | rfl | rfl | rfl | rfl <;>
      simp [normalizeEra, getCol_setCol, eraDefault, identifierCols]
  | yellow2 =>
    have hc' : c = "dropoff_location_id" ∨ c = "ehail_fee"
        ∨ c = "pickup_location_id" ∨ c = "trip_type" := by
      have : canonicalCols.filter (fun s => !((eraSchema .yellow2).contains s))
          = ["dropoff_location_id", "ehail_fee", "pickup_location_id",
             "trip_type"] := by decide
      rw [this] at hc
      simpa using hc
    rcases hc' with rfl | rfl | rfl | rfl <;>
      simp [normalizeEra, getCol_setCol, eraDefault, identifierCols]
  | yellow3 =>
    have hc' : c = "dropoff_latitude" ∨ c = "dropoff_longitude"
        ∨ c = "ehail_fee" ∨ c = "pickup_latitude" ∨ c = "pickup_longitude"
        ∨ c = "trip_type" := by
      have : canonicalCols.filter (fun s => !((eraSchema .yellow3).contains s))
          = ["dropoff_latitude", "dropoff_longitude", "ehail_fee",
             "pickup_latitude", "pickup_longitude", "trip_type"] := by decide
      rw [this] at hc
      simpa using hc
    rcases hc' with rfl | rfl | rfl | rfl | rfl | rfl <;>
      simp [normalizeEra, getCol_setCol, eraDefault, identifierCols,
        getCol_dropCols]

/-- Witness for C7: on a green pre-2015 row, `improvement_surcharge` is NaN
and `pickup_location_id` is `-999`. -/
theorem normalize_absent_columns_defaults_witness :
    getCol "improvement_surcharge"
        (normalizeEra .green1
          ((eraSchema .green1).map (fun n => (n, PyVal.num 1))))
      = some PyVal.nan
      ∧ getCol "pickup_location_id"
          (normalizeEra .green1
            ((eraSchema .green1).map (fun n => (n, PyVal.num 1))))
        = some (PyVal.int (-999)) :=
  ⟨(normalize_absent_columns_defaults .green1
      ((eraSchema .green1).map (fun n => (n, PyVal.num 1)))
      "improvement_surcharge" (by decide)).trans (by rfl),
   (normalize_absent_columns_defaults .green1
      ((eraSchema .green1).map (fun n => (n, PyVal.num 1)))
      "pickup_location_id" (by decide)).trans (by rfl)⟩

/-! ### Union assembly (`convert_taxi_csv_to_parquet.py`, `main`,
lines 193-200 and 272-278) -/

/-- One column of a dask/pandas dataframe: name, dtype and cell values. -/
structure Col8 where
  name : String
  dtype : Dtype
  vals : List PyVal
deriving DecidableEq, Repr

/-- A dataframe as its ordered column list. -/
abbrev Frame := List Col8

/-- Numpy/pandas dtype promotion applied by `append` when concatenating two
columns: equal dtypes are kept; anything mixed with object (or a
datetime/non-datetime mix) decays to object; mixed numeric kinds or widths
widen to float64; two integer dtypes widen to int64. -/
def promote (a b : Dtype) : Dtype :=
  if a = b then a
  else if a = .object ∨ b = .object then .object
  else if a = .datetime64 ∨ b = .datetime64 then .object
  else if a = .float64 ∨ b = .float64 then .float64
  else if a = .float32 ∨ b = .float32 then .float64
  else .int64

/-- The `dtype_list` declared in `main` (taxi script lines 111-137); the two
datetime columns are deliberately absent, as in the source (they are set by
`parse_dates`). -/
def dtypeList : List (String × Dtype) :=
  [("dropoff_latitude", .float64), ("dropoff_location_id", .int64),
   ("dropoff_longitude", .float64), ("ehail_fee", .float64),
   ("extra", .float64), ("fare_amount", .float64),
   ("improvement_surcharge", .float64), ("junk1", .object),
   ("junk2", .object), ("mta_tax", .float64), ("passenger_count", .int64),
   ("payment_type", .object), ("pickup_latitude", .float64),
   ("pickup_location_id", .int64), ("pickup_longitude", .float64),
   ("rate_code_id", .int64), ("store_and_fwd_flag", .object),
   ("tip_amount", .float64), ("tolls_amount", .float64),
   ("total_amount", .float64), ("trip_distance", .float64),
   ("trip_type", .object), ("vendor_id", .object)]

/-- The canonical dtype of each canonical column: the `dtype_list` entry,
and datetime64 for the two timestamp columns set by `parse_dates`. -/
def canonicalDtype (n : String) : Dtype :=
  if n = "pickup_datetime" ∨ n = "dropoff_datetime" then .datetime64
  else (dtypeList.lookup n).getD .object

/-- `df[names]` column selection (used as `green1[sorted(green1.columns)]`):
pick the named columns in the given order. -/
def selectCols (names : List String) (f : Frame) : Frame :=
  names.filterMap (fun n => f.find? (fun c => c.name = n))

/-- `a.append(b)` for two frames whose selected column orders already agree:
concatenate the cell lists columnwise and promote the dtypes. -/
def appendF (a b : Frame) : Frame :=
  List.zipWith (fun c d => ⟨c.name, promote c.dtype d.dtype, c.vals ++ d.vals⟩) a b

/-- The re-cast loop after concatenation
(`for field in list(green.columns): if field in dtype_list: ... astype`):
set each column's dtype to its `dtype_list` entry when there is one.  Only
the dtype tag is modelled: on the pipeline's inputs the cast re-applies a
dtype the values already fit, so cell values are unchanged. -/
def applyDtypes (m : List (String × Dtype)) (f : Frame) : Frame :=
  f.map (fun c =>
    match m.lookup c.name with
    | some d => ⟨c.name, d, c.vals⟩
    | none => c)

/-- The union assembler: sort both frames' columns into the canonical order,
concatenate, then re-apply `dtype_list`. -/
def assembleUnion (a b : Frame) : Frame :=
  applyDtypes dtypeList
    (appendF (selectCols canonicalCols a) (selectCols canonicalCols b))

/-- The (name, dtype) schema of a frame. -/
def dtypesOf (f : Frame) : List (String × Dtype) :=
  f.map (fun c => (c.name, c.dtype))

/-- A frame is normalized when every canonical column is present (findable
by name) with its canonical dtype. -/
def normalizedFrame (f : Frame) : Prop :=
  ∀ n ∈ canonicalCols,
    (f.find? (fun c => c.name = n)).map (fun c => (c.name, c.dtype))
      = some (n, canonicalDtype n)

/-- Selecting the canonical columns of a normalized frame yields the
canonical schema in canonical order. -/
theorem dtypesOf_selectCols (names : List String) (f : Frame) :
    (∀ n ∈ names,
      (f.find? (fun c => c.name = n)).map (fun c => (c.name, c.dtype))
        = some (n, canonicalDtype n)) →
    dtypesOf (selectCols names f)
      = names.map (fun n => (n, canonicalDtype n)) := by
  induction names with
  | nil => intro h; rfl
  | cons n ns ih =>
    intro h
    obtain ⟨c, hc, hcd⟩ := Option.map_eq_some'.mp (h n (by simp))
    obtain ⟨hcn, hct⟩ : c.name = n ∧ c.dtype = canonicalDtype n := by
      simpa using hcd
    simp only [selectCols, dtypesOf] at ih ⊢
    have hstep :
        List.filterMap (fun m => List.find? (fun c => decide (c.name = m)) f)
            (n :: ns)
          = c :: List.filterMap
              (fun m => List.find? (fun c => decide (c.name = m)) f) ns :=
      List.filterMap_cons_some hc
    rw [hstep, List.map_cons, List.map_cons, hcn, hct,
      ih (fun m hm => h m (List.mem_cons_of_mem n hm))]

/-- Appending two frames with the same schema keeps that schema: equal
dtypes promote to themselves. -/
theorem dtypesOf_appendF (a b : Frame) (L : List (String × Dtype))
    (ha : dtypesOf a = L) (hb : dtypesOf b = L) :
    dtypesOf (appendF a b) = L := by
  induction a generalizing b L with
  | nil =>
    cases b with
    | nil => rw [← ha]; rfl
    | cons d ds => rw [← ha] at hb; simp [dtypesOf] at hb
  | cons c cs ih =>
    cases L with
    | nil => simp [dtypesOf] at ha
    | cons x xs =>
      cases b with
      | nil => simp [dtypesOf] at hb
      | cons d ds =>
        obtain ⟨xn, xd⟩ := x
        simp only [dtypesOf, List.map_cons, List.cons.injEq] at ha hb
        obtain ⟨han, had⟩ : c.name = xn ∧ c.dtype = xd := by simpa using ha.1
        obtain ⟨hdn, hdd⟩ : d.name = xn ∧ d.dtype = xd := by simpa using hb.1
        simp only [appendF, dtypesOf, List.zipWith_cons_cons, List.map_cons]
        rw [han, had, hdd]
        have hpro : promote xd xd = xd := by simp [promote]
        rw [hpro]
        have htail := ih ds xs ha.2 hb.2
        simp only [appendF, dtypesOf] at htail
        rw [htail]

/-- The schema after the re-cast loop: each column's dtype is replaced by
its `dtype_list` entry when present. -/
theorem dtypesOf_applyDtypes (m : List (String × Dtype)) (f : Frame) :
    dtypesOf (applyDtypes m f)
      = (dtypesOf f).map (fun p => (p.1, (m.lookup p.1).getD p.2)) := by
  induction f with
  | nil => rfl
  | cons c cs ih =>
    simp only [applyDtypes, dtypesOf, List.map_cons] at ih ⊢
    cases hl : m.lookup c.name with
    | none => simp [hl, ih]
    | some d => simp [hl, ih]

/-- C8: assembling two normalized era batches -- sorting the columns into
the canonical order, concatenating, and re-applying the canonical dtype
map -- yields exactly the canonical schema, independent of the
concatenation order of the two inputs. -/
theorem union_dtypes_canonical_order_independent (a b : Frame)
    (ha : normalizedFrame a) (hb : normalizedFrame b) :
    dtypesOf (assembleUnion a b)
        = canonicalCols.map (fun n => (n, canonicalDtype n))
      ∧ dtypesOf (assembleUnion a b) = dtypesOf (assembleUnion b a) := by
  have key : ∀ x y : Frame, normalizedFrame x → normalizedFrame y →
      dtypesOf (assembleUnion x y)
        = canonicalCols.map (fun n => (n, canonicalDtype n)) := by
    intro x y hx hy
    have hsx := dtypesOf_selectCols canonicalCols x hx
    have hsy := dtypesOf_selectCols canonicalCols y hy
    have happ := dtypesOf_appendF (selectCols canonicalCols x)
      (selectCols canonicalCols y) _ hsx hsy
    unfold assembleUnion
    rw [dtypesOf_applyDtypes, happ]
    decide
  exact ⟨key a b ha hb, (key a b ha hb).trans (key b a hb ha).symm⟩

/-- A normalized frame in canonical column order (no rows). -/
def canonFrame : Frame :=
  canonicalCols.map (fun n => ⟨n, canonicalDtype n, []⟩)

/-- A normalized frame with the same columns in reversed (era-specific)
order. -/
def revFrame : Frame :=
  canonicalCols.reverse.map (fun n => ⟨n, canonicalDtype n, []⟩)

/-- Witness for C8 on two concrete normalized frames with different column
orders. -/
theorem union_dtypes_canonical_order_independent_witness :
    dtypesOf (assembleUnion canonFrame revFrame)
        = canonicalCols.map (fun n => (n, canonicalDtype n))
      ∧ dtypesOf (assembleUnion canonFrame revFrame)
        = dtypesOf (assembleUnion revFrame canonFrame) :=
  union_dtypes_canonical_order_independent canonFrame revFrame
    (by unfold normalizedFrame; decide) (by unfold normalizedFrame; decide)

end NYCTransport
